import Mathlib

/-!
Verification development for the AI-assisted code-review orchestrator
(`Code_reviewer` repository).  The Python sources are shallowly embedded:
pure computations become Lean functions over `Nat`/`Int`/`ℚ`/`String`,
dictionary-shaped records become structures or association lists, and every
external collaborator (LLM calls, linters, the file system) is passed in as
an explicit argument, since the orchestrator only ever observes its returned
value.
-/

namespace CodeReviewer

/-- Python truthiness of an optional string (`state.get(k)` where the value is
a string): `None` and `""` are falsy, every other string is truthy. -/
def truthyStr : Option String → Bool
  | none => false
  | some s => !s.isEmpty

/-- Python truthiness of an optional list value: `None` and `[]` are falsy. -/
def truthyList {α : Type} : Option (List α) → Bool
  | none => false
  | some l => !l.isEmpty

/-- Does the character list start with the given pattern? -/
def charsStartWith : List Char → List Char → Bool
  | [], _ => true
  | _ :: _, [] => false
  | p :: ps, c :: cs => p == c && charsStartWith ps cs

/-- Does the pattern occur somewhere in the character list? -/
def charsContain (hay pat : List Char) : Bool :=
  charsStartWith pat hay ||
    match hay with
    | [] => false
    | _ :: t => charsContain t pat

/-- Python substring test `pat in s`, over the underlying character lists. -/
def strContains (s pat : String) : Bool :=
  charsContain s.data pat.data

/-- Python falsiness of `s.strip()` ( `not code.strip()` ): true iff the
string has no non-whitespace character. -/
def isBlank (s : String) : Bool :=
  s.data.all Char.isWhitespace

/-- Python `round(x, 2)` on the exact rational value of the float: round to
two decimal places.  All scores produced by the analyzer are exact multiples
of `1/100`, where this agrees with Python's float rounding. -/
def round2 (q : ℚ) : ℚ :=
  ((round (q * 100) : ℤ) : ℚ) / 100

theorem round2_int_div (n : ℤ) : round2 ((n : ℚ) / 100) = (n : ℚ) / 100 := by
  unfold round2
  rw [div_mul_cancel₀]
  · norm_num
  · norm_num

/-! ## `JSONResultSaver` (src/services/json_result_saver.py)

The sessions file holds a JSON list of records
`{session_id, timestamp, <node_name>: <message>, ...}`.  A record is embedded
as a `SessionRecord` whose per-node keys form an association list (Python
dict keys are unique and keep insertion order). -/

/-- One record of the sessions file. -/
structure SessionRecord where
  session_id : String
  timestamp : String
  results : List (String × String)
  deriving Repr, DecidableEq

/-- The sessions file content: a list of session records. -/
abbrev Sessions := List SessionRecord

/-- Python dict assignment `d[k] = v` on an association list: overwrite the
first binding of `k` in place, else append the new binding at the end. -/
def setKey : List (String × String) → String → String → List (String × String)
  | [], k, v => [(k, v)]
  | (k', v') :: rest, k, v =>
    if k' == k then (k, v) :: rest else (k', v') :: setKey rest k v

/-- `JSONResultSaver.save_node_result`: walk the loaded sessions list; the
first record whose `session_id` matches is updated in place (`break` after
the first hit); if none matches, a fresh record carrying the in-memory
timestamp is appended. -/
def save_node_result (sessions : Sessions) (session_id ts node_name result_message : String) :
    Sessions :=
  match sessions with
  | [] => [⟨session_id, ts, [(node_name, result_message)]⟩]
  | r :: rest =>
    if r.session_id == session_id then
      { r with results := setKey r.results node_name result_message } :: rest
    else
      r :: save_node_result rest session_id ts node_name result_message

@[simp] theorem lookup_setKey_self (kvs : List (String × String)) (k v : String) :
    (setKey kvs k v).lookup k = some v := by
  induction kvs with
  | nil => simp [setKey, List.lookup]
  | cons kv rest ih =>
    obtain ⟨k', v'⟩ := kv
    by_cases h : k' = k
    · subst h
      simp [setKey, List.lookup]
    · have h1 : (k' == k) = false := by simp [h]
      have h2 : (k == k') = false := by simp [Ne.symm h]
      simp [setKey, List.lookup, h1, h2, ih]

theorem lookup_setKey_other (kvs : List (String × String)) (k k' v : String)
    (h : k' ≠ k) : (setKey kvs k v).lookup k' = kvs.lookup k' := by
  have h0 : (k' == k) = false := by simp [h]
  induction kvs with
  | nil => simp [setKey, List.lookup, h0]
  | cons kv rest ih =>
    obtain ⟨a, b⟩ := kv
    by_cases ha : a = k
    · subst ha
      simp [setKey, List.lookup, h0]
    · have h1 : (a == k) = false := by simp [ha]
      simp [setKey, List.lookup, h1, ih]

/-- The records of the sessions file that carry a given session id. -/
def sessionsFor (store : Sessions) (sid : String) : Sessions :=
  store.filter (fun r => r.session_id == sid)

theorem sessionsFor_save_other (store : Sessions) (sid ts n m sid' : String)
    (h : sid' ≠ sid) :
    sessionsFor (save_node_result store sid ts n m) sid' = sessionsFor store sid' := by
  induction store with
  | nil => simp [save_node_result, sessionsFor, Ne.symm h]
  | cons r rest ih =>
    by_cases hr : r.session_id = sid
    · have hb : (r.session_id == sid) = true := by simp [hr]
      have hb' : (r.session_id == sid') = false := by simp [hr, Ne.symm h]
      simp [save_node_result, sessionsFor, hb, hb'] at ih ⊢
    · have hb : (r.session_id == sid) = false := by simp [hr]
      simp only [save_node_result, hb, Bool.false_eq_true, if_false]
      simp only [sessionsFor, List.filter] at ih ⊢
      cases hc : (r.session_id == sid') <;> simp [hc, ih]

theorem sessionsFor_save_absent (store : Sessions) (sid ts n m : String)
    (h : sessionsFor store sid = []) :
    sessionsFor (save_node_result store sid ts n m) sid =
      [⟨sid, ts, [(n, m)]⟩] := by
  induction store with
  | nil => simp [save_node_result, sessionsFor]
  | cons r rest ih =>
    by_cases hr : r.session_id = sid
    · exfalso
      have hb : (r.session_id == sid) = true := by simp [hr]
      simp [sessionsFor, List.filter, hb] at h
    · have hb : (r.session_id == sid) = false := by simp [hr]
      have h' : sessionsFor rest sid = [] := by
        simpa [sessionsFor, List.filter, hb] using h
      simp only [save_node_result, hb, Bool.false_eq_true, if_false,
        sessionsFor, List.filter]
      simpa [sessionsFor] using ih h'

theorem sessionsFor_save_present (store : Sessions) (sid ts n m : String)
    (r : SessionRecord) (h : sessionsFor store sid = [r]) :
    sessionsFor (save_node_result store sid ts n m) sid =
      [{ r with results := setKey r.results n m }] := by
  induction store with
  | nil => simp [sessionsFor] at h
  | cons a rest ih =>
    by_cases ha : a.session_id = sid
    · have hb : (a.session_id == sid) = true := by simp [ha]
      have h' : a = r ∧ sessionsFor rest sid = [] := by
        have := h
        simp only [sessionsFor, List.filter, hb] at this
        exact ⟨by injection this, by injection this⟩
      obtain ⟨rfl, hrest⟩ := h'
      have hb2 : (a.session_id == sid) = true := hb
      simp only [save_node_result, hb2, if_true]
      have : sessionsFor ({ a with results := setKey a.results n m } :: rest) sid =
          { a with results := setKey a.results n m } :: sessionsFor rest sid := by
        simp [sessionsFor, List.filter, hb]
      rw [this, hrest]
    · have hb : (a.session_id == sid) = false := by simp [ha]
      have h' : sessionsFor rest sid = [r] := by
        simpa [sessionsFor, List.filter, hb] using h
      simp only [save_node_result, hb, Bool.false_eq_true, if_false,
        sessionsFor, List.filter]
      simpa [sessionsFor] using ih h'

end CodeReviewer

/-- C8: saving a result for stage A and then for stage B under the same
session id leaves exactly one record for that session id, that record has
both stage keys (the second save merged its key into the existing record
instead of appending a duplicate record), and the records of every other
session id are untouched.  The hypothesis `hdup` says the starting store is
well formed (at most one record per session id), which is the invariant the
saver itself maintains from an empty file. -/
theorem save_then_save_merges_one_record
    (store : CodeReviewer.Sessions) (sid tsA tsB A B mA mB : String)
    (hdup : (CodeReviewer.sessionsFor store sid).length ≤ 1)
    (hAB : A ≠ B) :
    ((CodeReviewer.sessionsFor
        (CodeReviewer.save_node_result
          (CodeReviewer.save_node_result store sid tsA A mA) sid tsB B mB) sid).length = 1
      ∧ ∀ r ∈ CodeReviewer.sessionsFor
          (CodeReviewer.save_node_result
            (CodeReviewer.save_node_result store sid tsA A mA) sid tsB B mB) sid,
          r.results.lookup A = some mA ∧ r.results.lookup B = some mB)
    ∧ ∀ sid', sid' ≠ sid →
        CodeReviewer.sessionsFor
          (CodeReviewer.save_node_result
            (CodeReviewer.save_node_result store sid tsA A mA) sid tsB B mB) sid' =
          CodeReviewer.sessionsFor store sid' := by
  constructor
  · have hcase : CodeReviewer.sessionsFor store sid = [] ∨
        ∃ r, CodeReviewer.sessionsFor store sid = [r] := by
      cases h : CodeReviewer.sessionsFor store sid with
      | nil => exact Or.inl rfl
      | cons a t =>
        cases t with
        | nil => exact Or.inr ⟨a, rfl⟩
        | cons b t' => simp [h] at hdup
    have hkeys : ∀ kvs : List (String × String),
        (CodeReviewer.setKey (CodeReviewer.setKey kvs A mA) B mB).lookup A = some mA ∧
        (CodeReviewer.setKey (CodeReviewer.setKey kvs A mA) B mB).lookup B = some mB := by
      intro kvs
      refine ⟨?_, ?_⟩
      · rw [CodeReviewer.lookup_setKey_other _ _ _ _ hAB]
        exact CodeReviewer.lookup_setKey_self _ _ _
      · exact CodeReviewer.lookup_setKey_self _ _ _
    rcases hcase with h0 | ⟨r, h1⟩
    · have hs1 := CodeReviewer.sessionsFor_save_absent store sid tsA A mA h0
      have hs2 := CodeReviewer.sessionsFor_save_present _ sid tsB B mB _ hs1
      refine ⟨by rw [hs2]; rfl, ?_⟩
      intro r hr
      rw [hs2] at hr
      simp only [List.mem_singleton] at hr
      subst hr
      exact hkeys []
    · have hs1 := CodeReviewer.sessionsFor_save_present store sid tsA A mA r h1
      have hs2 := CodeReviewer.sessionsFor_save_present _ sid tsB B mB _ hs1
      refine ⟨by rw [hs2]; rfl, ?_⟩
      intro r' hr'
      rw [hs2] at hr'
      simp only [List.mem_singleton] at hr'
      subst hr'
      exact hkeys r.results
  · intro sid' hne
    rw [CodeReviewer.sessionsFor_save_other _ _ _ _ _ _ hne,
      CodeReviewer.sessionsFor_save_other _ _ _ _ _ _ hne]

/-- Witness for C8 at a concrete store holding one unrelated session. -/
theorem save_then_save_merges_one_record_witness :
    ((CodeReviewer.sessionsFor
        (CodeReviewer.save_node_result
          (CodeReviewer.save_node_result
            [⟨"other-session", "t0", [("read_files", "ok")]⟩]
            "sess-1" "t1" "standards_check" "Standards analysis completed")
          "sess-1" "t2" "spec_validation" "Specification validation completed") "sess-1").length = 1
      ∧ ∀ r ∈ CodeReviewer.sessionsFor
          (CodeReviewer.save_node_result
            (CodeReviewer.save_node_result
              [⟨"other-session", "t0", [("read_files", "ok")]⟩]
              "sess-1" "t1" "standards_check" "Standards analysis completed")
            "sess-1" "t2" "spec_validation" "Specification validation completed") "sess-1",
          r.results.lookup "standards_check" = some "Standards analysis completed"
            ∧ r.results.lookup "spec_validation" = some "Specification validation completed")
    ∧ ∀ sid', sid' ≠ "sess-1" →
        CodeReviewer.sessionsFor
          (CodeReviewer.save_node_result
            (CodeReviewer.save_node_result
              [⟨"other-session", "t0", [("read_files", "ok")]⟩]
              "sess-1" "t1" "standards_check" "Standards analysis completed")
            "sess-1" "t2" "spec_validation" "Specification validation completed") sid' =
          CodeReviewer.sessionsFor [⟨"other-session", "t0", [("read_files", "ok")]⟩] sid' :=
  save_then_save_merges_one_record
    [⟨"other-session", "t0", [("read_files", "ok")]⟩]
    "sess-1" "t1" "t2" "standards_check" "spec_validation"
    "Standards analysis completed" "Specification validation completed"
    (by decide) (by decide)


/-! ## `SpecValidator` (src/tools/spec_validator_tool.py)

Only the metric computation is deterministic code; the per-category LLM
outcomes are external and enter as arguments. -/

namespace SpecValidator

/-- One entry of a `detailed_violations` list.  Only the `severity` key is
read by `_calculate_overall_metrics`; the other keys (rule id, file, line,
description, suggestion) are carried opaquely and are omitted here. -/
structure Violation where
  severity : String
  deriving Repr, DecidableEq

/-- The `json_analysis` slot of a category result: either the `{"error": ...}`
dict substituted for a failed/unparsable structured call (which has no
`detailed_violations` key), or a parsed dict in which the
`detailed_violations` key may or may not be present. -/
inductive JsonAnalysis where
  | errDict (msg : String)
  | parsed (detailed_violations : Option (List Violation))
  deriving Repr, DecidableEq

/-- The per-category result assembled by `_validate_yaml_category`:
`{yaml_rules, json_analysis, streaming_analysis}` (the streaming text is
opaque; on a streaming failure the slot holds the error text). -/
structure CategoryResults where
  yaml_rules : List String
  json_analysis : JsonAnalysis
  streaming_analysis : String
  deriving Repr, DecidableEq

/-- `_validate_yaml_category`: with no rules for the category, return the
fixed skip result; otherwise record the rule ids and the outcome of the two
concurrently gathered tasks (`asyncio.gather(..., return_exceptions=True)`:
an exception becomes an `{"error": ...}` value, it is never re-raised). -/
def validate_yaml_category (category_rules : List String)
    (jsonOutcome : Except String JsonAnalysis)
    (streamingOutcome : Except String String) : CategoryResults :=
  if category_rules.isEmpty then
    { yaml_rules := []
      json_analysis := .errDict "No rules found for category in YAML"
      streaming_analysis := "skipped" }
  else
    { yaml_rules := category_rules
      json_analysis := match jsonOutcome with
        | .ok j => j
        | .error e => .errDict e
      streaming_analysis := match streamingOutcome with
        | .ok s => s
        | .error e => e }

/-- Violations contributed by one category: counted only when its
`json_analysis` is a dict containing `detailed_violations`. -/
def stepViolations (c : CategoryResults) : Nat :=
  match c.json_analysis with
  | .parsed (some vs) => vs.length
  | _ => 0

/-- Rules contributed by one category (same guard as `stepViolations`,
mirroring the single loop of `_calculate_overall_metrics`). -/
def stepRules (c : CategoryResults) : Nat :=
  match c.json_analysis with
  | .parsed (some _) => c.yaml_rules.length
  | _ => 0

def totalViolations (steps : List (String × CategoryResults)) : Nat :=
  (steps.map (fun st => stepViolations st.2)).sum

def totalRulesApplied (steps : List (String × CategoryResults)) : Nat :=
  (steps.map (fun st => stepRules st.2)).sum

/-- Count of counted violations carrying one of the four tracked severities. -/
def countSeverity (steps : List (String × CategoryResults)) (sev : String) : Nat :=
  (steps.map (fun st =>
    match st.2.json_analysis with
    | .parsed (some vs) => (vs.filter (fun v => v.severity == sev)).length
    | _ => 0)).sum

/-- `_get_compliance_level`. -/
def get_compliance_level (score : Int) : String :=
  if score ≥ 90 then "EXCELLENT"
  else if score ≥ 75 then "GOOD"
  else if score ≥ 60 then "FAIR"
  else "POOR"

/-- The dict returned by `_calculate_overall_metrics`. -/
structure OverallMetrics where
  total_categories_validated : Nat
  total_yaml_rules_applied : Nat
  total_violations_found : Nat
  critical_count : Nat
  high_count : Nat
  medium_count : Nat
  low_count : Nat
  overall_compliance_score : Int
  compliance_level : String
  deriving Repr, DecidableEq

/-- `_calculate_overall_metrics`: score starts at 100 and, when any rules
were applied, becomes `max(0, 100 - min(total_violations * 10, 100))`. -/
def calculate_overall_metrics (steps : List (String × CategoryResults)) : OverallMetrics :=
  let tv := totalViolations steps
  let tr := totalRulesApplied steps
  let score : Int := if 0 < tr then max 0 (100 - min ((tv : Int) * 10) 100) else 100
  { total_categories_validated := steps.length
    total_yaml_rules_applied := tr
    total_violations_found := tv
    critical_count := countSeverity steps "critical"
    high_count := countSeverity steps "high"
    medium_count := countSeverity steps "medium"
    low_count := countSeverity steps "low"
    overall_compliance_score := score
    compliance_level := get_compliance_level score }

/-- The success result of `_run_pure_yaml_validation`: the per-category
steps (LLM-dependent, passed in) plus the metrics computed from them. -/
structure SpecValidationResult where
  validation_steps : List (String × CategoryResults)
  overall_metrics : OverallMetrics
  deriving Repr, DecidableEq

def run_pure_yaml_validation (steps : List (String × CategoryResults)) :
    SpecValidationResult :=
  { validation_steps := steps, overall_metrics := calculate_overall_metrics steps }

/-- A category result built by `_validate_yaml_category` only contributes
violations when it also contributed its nonempty rule list. -/
theorem step_wellformed (rules : List String)
    (jsonO : Except String JsonAnalysis) (streamO : Except String String) :
    0 < stepViolations (validate_yaml_category rules jsonO streamO) →
    0 < stepRules (validate_yaml_category rules jsonO streamO) := by
  by_cases hr : rules.isEmpty
  · simp [validate_yaml_category, hr, stepViolations]
  · have hl : 0 < rules.length := by
      cases rules with
      | nil => simp at hr
      | cons a t => simp
    cases jsonO with
    | error e => simp [validate_yaml_category, hr, stepViolations]
    | ok j =>
      cases j with
      | errDict m => simp [validate_yaml_category, hr, stepViolations]
      | parsed dv =>
        cases dv with
        | none => simp [validate_yaml_category, hr, stepViolations]
        | some vs =>
          intro _
          simpa [validate_yaml_category, hr, stepRules] using hl

/-- In every pipeline run the steps come from `validate_yaml_category`, so a
category that contributes violations also contributes its (nonempty) rule
list: the well-formedness hypothesis of the score theorem holds. -/
theorem run_steps_wellformed
    (inputs : List (String × List String × Except String JsonAnalysis × Except String String)) :
    0 < totalViolations (inputs.map (fun i =>
        (i.1, validate_yaml_category i.2.1 i.2.2.1 i.2.2.2))) →
    0 < totalRulesApplied (inputs.map (fun i =>
        (i.1, validate_yaml_category i.2.1 i.2.2.1 i.2.2.2))) := by
  induction inputs with
  | nil => simp [totalViolations, totalRulesApplied]
  | cons i rest ih =>
    simp only [List.map_cons, totalViolations, totalRulesApplied, List.sum_cons] at ih ⊢
    intro h
    by_cases h1 : 0 < stepViolations (validate_yaml_category i.2.1 i.2.2.1 i.2.2.2)
    · have := step_wellformed i.2.1 i.2.2.1 i.2.2.2 h1
      omega
    · have := ih (by omega)
      omega

end SpecValidator

/-- C5: for a validation run whose steps are well formed (violations are only
reported by categories that applied rules — true of every run, see
`SpecValidator.run_steps_wellformed`), the overall compliance score equals
`max 0 (100 - 10 * violation_count)`, and the compliance level buckets are
`≥90` EXCELLENT, `≥75` GOOD, `≥60` FAIR, otherwise POOR. -/
theorem spec_compliance_score_and_levels
    (steps : List (String × SpecValidator.CategoryResults))
    (h : 0 < SpecValidator.totalViolations steps →
        0 < SpecValidator.totalRulesApplied steps) :
    (SpecValidator.calculate_overall_metrics steps).overall_compliance_score
        = max 0 (100 - 10 * (SpecValidator.totalViolations steps : Int))
    ∧ (SpecValidator.calculate_overall_metrics steps).compliance_level
        = SpecValidator.get_compliance_level
            ((SpecValidator.calculate_overall_metrics steps).overall_compliance_score)
    ∧ (∀ s : Int, 90 ≤ s → SpecValidator.get_compliance_level s = "EXCELLENT")
    ∧ (∀ s : Int, 75 ≤ s → s < 90 → SpecValidator.get_compliance_level s = "GOOD")
    ∧ (∀ s : Int, 60 ≤ s → s < 75 → SpecValidator.get_compliance_level s = "FAIR")
    ∧ (∀ s : Int, s < 60 → SpecValidator.get_compliance_level s = "POOR") := by
  refine ⟨?_, rfl, ?_, ?_, ?_, ?_⟩
  · by_cases htr : 0 < SpecValidator.totalRulesApplied steps
    · simp only [SpecValidator.calculate_overall_metrics, htr, if_true]
      omega
    · have htv : SpecValidator.totalViolations steps = 0 := by
        by_contra hc
        exact htr (h (Nat.pos_of_ne_zero hc))
      simp only [SpecValidator.calculate_overall_metrics, htr, if_false, htv]
      norm_num
  · intro s hs
    unfold SpecValidator.get_compliance_level
    rw [if_pos (by omega)]
  · intro s hs1 hs2
    unfold SpecValidator.get_compliance_level
    rw [if_neg (by omega), if_pos (by omega)]
  · intro s hs1 hs2
    unfold SpecValidator.get_compliance_level
    rw [if_neg (by omega), if_neg (by omega), if_pos (by omega)]
  · intro s hs
    unfold SpecValidator.get_compliance_level
    rw [if_neg (by omega), if_neg (by omega), if_neg (by omega)]

/-- Witness for C5 at a concrete run: two categories, one of which reports
two violations against two applied rules (score 80, level GOOD). -/
theorem spec_compliance_score_and_levels_witness :
    (SpecValidator.calculate_overall_metrics
        [("naming_conventions",
          ⟨["NC-001", "NC-002"],
            .parsed (some [⟨"high"⟩, ⟨"low"⟩]), "narrative"⟩),
         ("documentation", ⟨["DOC-001"], .errDict "parse failure", ""⟩)]
      ).overall_compliance_score
      = max 0 (100 - 10 * ((SpecValidator.totalViolations
          [("naming_conventions",
            ⟨["NC-001", "NC-002"],
              .parsed (some [⟨"high"⟩, ⟨"low"⟩]), "narrative"⟩),
           ("documentation", ⟨["DOC-001"], .errDict "parse failure", ""⟩)]) : Int)) :=
  (spec_compliance_score_and_levels
    [("naming_conventions",
      ⟨["NC-001", "NC-002"], .parsed (some [⟨"high"⟩, ⟨"low"⟩]), "narrative"⟩),
     ("documentation", ⟨["DOC-001"], .errDict "parse failure", ""⟩)]
    (by decide)).1

/-! ## Shared file record

Entries of `state["files"]` as produced by the ingestion stage:
`{file_name, language, code}` (the `language` key is optional in the dict). -/

/-- A normalized analysis target. -/
structure FileRec where
  file_name : String
  language : Option String
  code : String
  deriving Repr, DecidableEq

/-! ## `SecurityQualityAnalyzer` (src/tools/security_analyzer.py)

The external tools (Bandit, Safety, Pylint) are out-of-process collaborators;
their already-normalized issue lists enter as arguments.  The JavaScript,
Java, C++ and generic analyzers are deterministic. -/

namespace SecurityAnalyzer

/-- One issue dict `{tool, type, message, severity}` (extra keys such as
`confidence`/`line`/`advisory` are never read by the scoring code). -/
structure SecIssue where
  tool : String
  type : String
  message : String
  severity : String
  deriving Repr, DecidableEq

/-- The `severity_weights` table, looked up with default weight 1. -/
def severity_weights (s : String) : Nat :=
  if s == "critical" then 5
  else if s == "high" then 4
  else if s == "medium" then 3
  else if s == "low" then 1
  else if s == "info" then 0
  else 1

/-- Total weight summed over the `security`/`vulnerability` issues only. -/
def securityWeight (issues : List SecIssue) : Nat :=
  (issues.map (fun i =>
    if i.type == "security" || i.type == "vulnerability" then
      severity_weights i.severity
    else 0)).sum

/-- `_calculate_security_score`: 10.0 for an empty issue list, else base 10
minus the capped penalty `min(total_weight * 0.5, 9.0)`, floored at 1.0 and
rounded to two decimals. -/
def calculate_security_score (issues : List SecIssue) : ℚ :=
  if issues.isEmpty then 10
  else
    let total_weight := securityWeight issues
    CodeReviewer.round2 (max (10 - min ((total_weight : ℚ) * (1 / 2)) 9) 1)

/-- `_calculate_quality_score`: 10.0 for an empty issue list, else base 10
minus `min(quality_issue_count * 0.2, 9.0)`, floored at 1.0, rounded. -/
def calculate_quality_score (issues : List SecIssue) : ℚ :=
  if issues.isEmpty then 10
  else
    let c := (issues.filter (fun i =>
      i.type == "quality" || i.type == "maintainability")).length
    CodeReviewer.round2 (max (10 - min ((c : ℚ) * (1 / 5)) 9) 1)

/-- The per-file analysis dict. -/
structure SecFileAnalysis where
  file_name : String
  language : String
  tools_used : List String
  issues : List SecIssue
  security_score : ℚ
  quality_score : ℚ
  deriving Repr, DecidableEq

/-- `_analyze_python`: blank code keeps the initial zero-score record;
otherwise the three tool reports are concatenated and scored. -/
def analyze_python (bandit safety pylint : List SecIssue) (f : FileRec) :
    SecFileAnalysis :=
  if CodeReviewer.isBlank f.code then
    { file_name := f.file_name, language := "python", tools_used := []
      issues := [], security_score := 0, quality_score := 0 }
  else
    let issues := bandit ++ safety ++ pylint
    { file_name := f.file_name, language := "python"
      tools_used := ["bandit", "safety", "pylint"], issues := issues
      security_score := calculate_security_score issues
      quality_score := calculate_quality_score issues }

/-- `_analyze_javascript`: fixed advisory issue, scores stay 0. -/
def analyze_javascript (f : FileRec) : SecFileAnalysis :=
  { file_name := f.file_name, language := "javascript", tools_used := []
    issues := [⟨"ESLint", "info",
      "JavaScript security analysis requires ESLint with security plugins",
      "medium"⟩]
    security_score := 0, quality_score := 0 }

/-- `_analyze_java`: fixed advisory issue, scores stay 0. -/
def analyze_java (f : FileRec) : SecFileAnalysis :=
  { file_name := f.file_name, language := "java", tools_used := []
    issues := [⟨"SpotBugs", "info",
      "Java security analysis requires SpotBugs or CheckMarx", "medium"⟩]
    security_score := 0, quality_score := 0 }

/-- `_analyze_cpp`: fixed advisory issue, scores stay 0. -/
def analyze_cpp (f : FileRec) : SecFileAnalysis :=
  { file_name := f.file_name, language := "cpp", tools_used := []
    issues := [⟨"clang-tidy", "info",
      "C++ security analysis requires clang-tidy with security checks",
      "medium"⟩]
    security_score := 0, quality_score := 0 }

/-- `_analyze_generic`: fixed low-severity note, scores stay 0. -/
def analyze_generic (f : FileRec) : SecFileAnalysis :=
  let lang := f.language.getD "unknown"
  { file_name := f.file_name, language := lang, tools_used := ["generic"]
    issues := [⟨"Generic", "info",
      s!"No specific security tools configured for {lang}", "low"⟩]
    security_score := 0, quality_score := 0 }

/-- `_analyze_single_file`: dispatch on `file.get("language", "unknown")`
through the `supported_languages` table, defaulting to the generic
analyzer. -/
def sec_analyze_single_file (bandit safety pylint : List SecIssue)
    (f : FileRec) : SecFileAnalysis :=
  let language := f.language.getD "unknown"
  if language == "python" then analyze_python bandit safety pylint f
  else if language == "javascript" then analyze_javascript f
  else if language == "java" then analyze_java f
  else if language == "cpp" then analyze_cpp f
  else analyze_generic f

/-- `_rate_security` buckets. -/
def rate_security (score : ℚ) : String :=
  if 9 ≤ score then "EXCELLENT"
  else if 7 ≤ score then "GOOD"
  else if 5 ≤ score then "FAIR"
  else if 3 ≤ score then "POOR"
  else "CRITICAL"

/-- `_rate_quality` buckets (bottom bucket VERY_POOR). -/
def rate_quality (score : ℚ) : String :=
  if 9 ≤ score then "EXCELLENT"
  else if 7 ≤ score then "GOOD"
  else if 5 ≤ score then "FAIR"
  else if 3 ≤ score then "POOR"
  else "VERY_POOR"

/-- The dict returned by `_generate_overall_assessment`: for an empty list
only the two UNKNOWN ratings are present; otherwise simple means over all
file analyses, rounded for storage, unrounded for the rating buckets. -/
structure OverallAssessment where
  average_security_score : Option ℚ
  average_quality_score : Option ℚ
  security_rating : String
  quality_rating : String
  total_issues : Option Nat
  files_analyzed : Option Nat
  deriving Repr, DecidableEq

def generate_overall_assessment (analyses : List SecFileAnalysis) :
    OverallAssessment :=
  if analyses.isEmpty then
    { average_security_score := none, average_quality_score := none
      security_rating := "UNKNOWN", quality_rating := "UNKNOWN"
      total_issues := none, files_analyzed := none }
  else
    let avg_security := (analyses.map (fun a => a.security_score)).sum / analyses.length
    let avg_quality := (analyses.map (fun a => a.quality_score)).sum / analyses.length
    { average_security_score := some (CodeReviewer.round2 avg_security)
      average_quality_score := some (CodeReviewer.round2 avg_quality)
      security_rating := rate_security avg_security
      quality_rating := rate_quality avg_quality
      total_issues := some ((analyses.map (fun a => a.issues.length)).sum)
      files_analyzed := some analyses.length }

/-- The security-score formula exactly as the specification states it:
10.0 for zero issues, otherwise `max(1.0, 10.0 - min(0.5*W, 9.0))` with `W`
the summed severity weight of the security/vulnerability issues. -/
def specSecurityScore (issues : List SecIssue) : ℚ :=
  if issues.isEmpty then 10
  else max 1 (10 - min ((securityWeight issues : ℚ) / 2) 9)

/-- The implemented score equals the specification formula for every issue
list: the two-decimal rounding is the identity because the value is always
an exact multiple of 1/2. -/
theorem calculate_security_score_eq_spec (issues : List SecIssue) :
    calculate_security_score issues = specSecurityScore issues := by
  unfold calculate_security_score specSecurityScore
  by_cases he : issues.isEmpty
  · simp [he]
  · simp only [he, Bool.false_eq_true, if_false]
    have hhalf : ((securityWeight issues : ℚ)) * (1 / 2) =
        (securityWeight issues : ℚ) / 2 := by ring
    rw [hhalf]
    have hmin : min ((securityWeight issues : ℚ) / 2) 9 ≤ 9 := min_le_right _ _
    have h1 : (1 : ℚ) ≤ 10 - min ((securityWeight issues : ℚ) / 2) 9 := by linarith
    rw [max_eq_left h1, max_eq_right h1]
    rcases le_total ((securityWeight issues : ℚ) / 2) 9 with h | h
    · rw [min_eq_left h]
      have hcast : (10 : ℚ) - (securityWeight issues : ℚ) / 2 =
          ((1000 - 50 * (securityWeight issues : ℤ) : ℤ) : ℚ) / 100 := by
        push_cast
        ring
      rw [hcast, CodeReviewer.round2_int_div]
    · rw [min_eq_right h]
      have hone : (10 : ℚ) - 9 = ((100 : ℤ) : ℚ) / 100 := by norm_num
      rw [hone, CodeReviewer.round2_int_div]

end SecurityAnalyzer

/-- C7 counterexample: a JavaScript file is "analyzed by the security stage"
and carries one (info-type, medium-severity) issue, yet its stored
`security_score` is the hard-coded 0, while the claimed formula
`max(1, 10 - min(0.5*W, 9))` evaluates to 10 on those issues (their summed
security weight W is 0). -/
theorem security_score_claim_fails_on_javascript_file :
    (SecurityAnalyzer.sec_analyze_single_file [] [] []
        ⟨"app.js", some "javascript", "console.log(1)"⟩).security_score = 0
    ∧ (SecurityAnalyzer.sec_analyze_single_file [] [] []
        ⟨"app.js", some "javascript", "console.log(1)"⟩).issues
      = [⟨"ESLint", "info",
          "JavaScript security analysis requires ESLint with security plugins",
          "medium"⟩]
    ∧ SecurityAnalyzer.specSecurityScore
        [⟨"ESLint", "info",
          "JavaScript security analysis requires ESLint with security plugins",
          "medium"⟩] = 10
    ∧ (0 : ℚ) ≠ 10 := by
  refine ⟨rfl, rfl, ?_, by norm_num⟩
  simp [SecurityAnalyzer.specSecurityScore, SecurityAnalyzer.securityWeight,
    SecurityAnalyzer.severity_weights]

/-- C7 (amended): for every file the security stage analyzes as Python code
with non-blank content, the stored `security_score` follows the claimed
formula — 10.0 with zero issues, else `max(1.0, 10.0 - min(0.5*W, 9.0))`
over the summed severity weight W of its security/vulnerability issues.
Non-Python files and blank Python files keep the hard-coded score 0. -/
theorem python_security_score_follows_formula
    (bandit safety pylint : List SecurityAnalyzer.SecIssue) (f : FileRec)
    (hlang : f.language = some "python")
    (hcode : CodeReviewer.isBlank f.code = false) :
    (SecurityAnalyzer.sec_analyze_single_file bandit safety pylint f).security_score
      = SecurityAnalyzer.specSecurityScore (bandit ++ safety ++ pylint) := by
  rw [show SecurityAnalyzer.sec_analyze_single_file bandit safety pylint f
      = SecurityAnalyzer.analyze_python bandit safety pylint f by
    simp [SecurityAnalyzer.sec_analyze_single_file, hlang]]
  unfold SecurityAnalyzer.analyze_python
  rw [hcode]
  simp only [Bool.false_eq_true, if_false]
  exact SecurityAnalyzer.calculate_security_score_eq_spec _

/-- Witness for the amended C7: a Python file with one high-severity security
issue from Bandit (W = 4, score 8.0). -/
theorem python_security_score_follows_formula_witness :
    (SecurityAnalyzer.sec_analyze_single_file
        [⟨"Bandit", "security", "hardcoded password", "high"⟩] [] []
        ⟨"main.py", some "python", "import os"⟩).security_score
      = SecurityAnalyzer.specSecurityScore
          ([⟨"Bandit", "security", "hardcoded password", "high"⟩] ++ [] ++ []) :=
  python_security_score_follows_formula
    [⟨"Bandit", "security", "hardcoded password", "high"⟩] [] []
    ⟨"main.py", some "python", "import os"⟩
    rfl (by decide)

/-- C10: every file whose `language` is not `python` (JavaScript, Java, C++
or anything unrecognized) gets `security_score = 0` and `quality_score = 0`
from the security stage — the base-10 formula is never applied to it — and
the overall assessment averages are plain means over all per-file analyses,
so those zeros are included. -/
theorem nonpython_files_zero_scores_in_mean :
    (∀ (bandit safety pylint : List SecurityAnalyzer.SecIssue) (f : FileRec),
        f.language ≠ some "python" →
        (SecurityAnalyzer.sec_analyze_single_file bandit safety pylint f).security_score = 0
        ∧ (SecurityAnalyzer.sec_analyze_single_file bandit safety pylint f).quality_score = 0)
    ∧ (∀ analyses : List SecurityAnalyzer.SecFileAnalysis, analyses ≠ [] →
        (SecurityAnalyzer.generate_overall_assessment analyses).average_security_score
          = some (CodeReviewer.round2
              ((analyses.map (fun a => a.security_score)).sum / analyses.length))
        ∧ (SecurityAnalyzer.generate_overall_assessment analyses).average_quality_score
          = some (CodeReviewer.round2
              ((analyses.map (fun a => a.quality_score)).sum / analyses.length))) := by
  constructor
  · intro bandit safety pylint f hlang
    have hne : (f.language.getD "unknown" == "python") = false := by
      cases hl : f.language with
      | none => simp
      | some l =>
        have : l ≠ "python" := by
          intro h
          exact hlang (by rw [hl, h])
        simp [this]
    unfold SecurityAnalyzer.sec_analyze_single_file
    simp only [hne, Bool.false_eq_true, if_false]
    by_cases h1 : (f.language.getD "unknown" == "javascript") = true
    · simp [h1, SecurityAnalyzer.analyze_javascript]
    · rw [Bool.not_eq_true] at h1
      simp only [h1, Bool.false_eq_true, if_false]
      by_cases h2 : (f.language.getD "unknown" == "java") = true
      · simp [h2, SecurityAnalyzer.analyze_java]
      · rw [Bool.not_eq_true] at h2
        simp only [h2, Bool.false_eq_true, if_false]
        by_cases h3 : (f.language.getD "unknown" == "cpp") = true
        · simp [h3, SecurityAnalyzer.analyze_cpp]
        · rw [Bool.not_eq_true] at h3
          simp only [h3, Bool.false_eq_true, if_false]
          simp [SecurityAnalyzer.analyze_generic]
  · intro analyses hne
    have he : analyses.isEmpty = false := by
      cases analyses with
      | nil => exact absurd rfl hne
      | cons a t => rfl
    unfold SecurityAnalyzer.generate_overall_assessment
    rw [he]
    simp

/-- Witness for C10: one Java file scores (0, 0), and the overall assessment
over a 10.0-python-file analysis and that zero analysis averages them both. -/
theorem nonpython_files_zero_scores_in_mean_witness :
    ((SecurityAnalyzer.sec_analyze_single_file [] [] []
        ⟨"App.java", some "java", "class App {}"⟩).security_score = 0
      ∧ (SecurityAnalyzer.sec_analyze_single_file [] [] []
          ⟨"App.java", some "java", "class App {}"⟩).quality_score = 0)
    ∧ ((SecurityAnalyzer.generate_overall_assessment
          [⟨"ok.py", "python", [], [], 10, 10⟩,
           ⟨"App.java", "java", [], [], 0, 0⟩]).average_security_score
        = some (CodeReviewer.round2
            (([⟨"ok.py", "python", [], [], 10, 10⟩,
               ⟨"App.java", "java", [], [], 0, 0⟩].map
                (fun a => SecurityAnalyzer.SecFileAnalysis.security_score a)).sum /
              ([⟨"ok.py", "python", [], [], (10 : ℚ), 10⟩,
                ⟨"App.java", "java", [], [], 0, 0⟩] :
                  List SecurityAnalyzer.SecFileAnalysis).length))) :=
  ⟨nonpython_files_zero_scores_in_mean.1 [] [] []
      ⟨"App.java", some "java", "class App {}"⟩ (by simp),
   (nonpython_files_zero_scores_in_mean.2
      [⟨"ok.py", "python", [], [], 10, 10⟩, ⟨"App.java", "java", [], [], 0, 0⟩]
      (by simp)).1⟩

/-! ## Requirement-validation data model

Shared between `RequirementValidator` (src/tools/requirement_validator_tool.py),
which produces the analysis record, and `ConsolidatedReporter`
(src/tools/consolidated_reporter_tool.py), which aggregates it. -/

namespace ReqData

/-- One category entry of `overall_alignment_scores`:
`{total, implemented, not_implemented, average_confidence_score}`. -/
structure CategoryScore where
  total : Nat
  implemented : Nat
  not_implemented : Nat
  average_confidence_score : ℚ
  deriving Repr, DecidableEq

/-- The four fixed categories of `overall_alignment_scores`. -/
structure AlignmentScores where
  user_stories : CategoryScore
  functional_requirements : CategoryScore
  security_requirements : CategoryScore
  non_functional_requirements : CategoryScore
  deriving Repr, DecidableEq

/-- The categories in their fixed order, as a list. -/
def categories (a : AlignmentScores) : List CategoryScore :=
  [a.user_stories, a.functional_requirements,
   a.security_requirements, a.non_functional_requirements]

end ReqData

namespace RequirementValidator

/-- `coverage_metrics` of `alignment_analysis`. -/
structure CoverageMetrics where
  total_requirements : Nat
  fully_covered : Nat
  partially_covered : Nat
  missing : Nat
  coverage_percentage : ℚ
  deriving Repr, DecidableEq

/-- `alignment_analysis` section. -/
structure AlignmentAnalysis where
  overall_alignment_score : ℚ
  coverage_metrics : CoverageMetrics
  deriving Repr, DecidableEq

/-- `comprehensive_analysis` section (the `requirement_details`,
`file_analysis` and `actionable_improvement_plans` keys are carried opaquely
by the code and never read by the logic under verification; they are
omitted). -/
structure ComprehensiveAnalysis where
  overall_alignment_scores : ReqData.AlignmentScores
  executive_summary : String
  deriving Repr, DecidableEq

/-- The analysis record produced by the structured branch.  `parse_error`
models the presence of the `"parse_error": True` key: only the fallback
structure carries it. -/
structure ReqAnalysis where
  comprehensive_analysis : ComprehensiveAnalysis
  alignment_analysis : AlignmentAnalysis
  parse_error : Bool
  deriving Repr, DecidableEq

/-- `_create_fallback_structure`: the documented all-zero structured schema
flagged with `parse_error`. -/
def create_fallback_structure : ReqAnalysis :=
  { comprehensive_analysis :=
      { overall_alignment_scores :=
          ⟨⟨0, 0, 0, 0⟩, ⟨0, 0, 0, 0⟩, ⟨0, 0, 0, 0⟩, ⟨0, 0, 0, 0⟩⟩
        executive_summary := "Analysis completed with errors" }
    alignment_analysis :=
      { overall_alignment_score := 0
        coverage_metrics := ⟨0, 0, 0, 0, 0⟩ }
    parse_error := true }

/-- `_beautified_streaming_analysis` catches every exception internally and
returns the accumulated text, or `""` on failure — the narrative branch
never propagates an exception to the caller. -/
def beautified_streaming_outcome (stream : Except String String) : String :=
  match stream with
  | .ok s => s
  | .error _ => ""

/-- `_async_streaming_analysis` after the `asyncio.gather(...,
return_exceptions=True)` join: if the structured branch delivered an
exception, the fallback structure is returned; otherwise the parsed result
is returned.  The streaming branch's outcome is only logged — it does not
enter the returned value on any path — and no path raises. -/
def async_streaming_analysis (json_result : Except String ReqAnalysis)
    (streaming_output : Except String String) : ReqAnalysis :=
  match json_result with
  | .error _ => create_fallback_structure
  | .ok r => r

end RequirementValidator

/-- C3 counterexample: with the structured branch throwing and the narrative
branch succeeding with a nonempty text, the analyzer returns exactly the
constant fallback structure — the same value as with an empty narrative —
whose only text field is the fixed string "Analysis completed with errors":
the full narrative text is *not* contained in the returned result. -/
theorem dual_mode_result_drops_narrative :
    RequirementValidator.async_streaming_analysis
        (.error "JSON analysis failed: boom") (.ok "THE FULL NARRATIVE TEXT")
      = RequirementValidator.create_fallback_structure
    ∧ RequirementValidator.async_streaming_analysis
        (.error "JSON analysis failed: boom") (.ok "THE FULL NARRATIVE TEXT")
      = RequirementValidator.async_streaming_analysis
          (.error "JSON analysis failed: boom") (.ok "")
    ∧ RequirementValidator.create_fallback_structure.parse_error = true
    ∧ RequirementValidator.create_fallback_structure.comprehensive_analysis.executive_summary
      = "Analysis completed with errors" :=
  ⟨rfl, rfl, rfl, rfl⟩

/-- C3 (amended): if the structured branch throws, the analyzer does not
raise and returns the documented `parse_error` all-zero fallback schema,
independently of the narrative branch; if the structured branch succeeds its
parsed record is returned.  In neither case is the narrative text part of
the returned result (it is only logged), and no exception propagates even
when both branches fail: the analyzer is a total function of the two branch
outcomes. -/
theorem dual_mode_fallback_behavior :
    (∀ (e : String) (s : Except String String),
        RequirementValidator.async_streaming_analysis (.error e) s
          = RequirementValidator.create_fallback_structure)
    ∧ (∀ (r : RequirementValidator.ReqAnalysis) (s : Except String String),
        RequirementValidator.async_streaming_analysis (.ok r) s = r)
    ∧ RequirementValidator.create_fallback_structure.parse_error = true :=
  ⟨fun _ _ => rfl, fun _ _ => rfl, rfl⟩

/-! ## `ConsolidatedReporter._extract_requirements_data`
(src/tools/consolidated_reporter_tool.py, lines 150-196): the aggregation
over the four categories of `overall_alignment_scores`. -/

namespace ConsolidatedReporter

/-- `total_requirements`: sum of the four category totals. -/
def total_requirements (a : ReqData.AlignmentScores) : Nat :=
  a.user_stories.total + a.functional_requirements.total +
    a.security_requirements.total + a.non_functional_requirements.total

/-- `total_implemented`: sum of the four category `implemented` counts. -/
def total_implemented (a : ReqData.AlignmentScores) : Nat :=
  a.user_stories.implemented + a.functional_requirements.implemented +
    a.security_requirements.implemented + a.non_functional_requirements.implemented

/-- `overall_score`: each category's confidence times its weight
`total_i / total_requirements`, summed; 0 when there are no requirements. -/
def overall_score (a : ReqData.AlignmentScores) : ℚ :=
  if 0 < total_requirements a then
    a.user_stories.average_confidence_score *
        ((a.user_stories.total : ℚ) / (total_requirements a : ℚ)) +
      a.functional_requirements.average_confidence_score *
        ((a.functional_requirements.total : ℚ) / (total_requirements a : ℚ)) +
      a.security_requirements.average_confidence_score *
        ((a.security_requirements.total : ℚ) / (total_requirements a : ℚ)) +
      a.non_functional_requirements.average_confidence_score *
        ((a.non_functional_requirements.total : ℚ) / (total_requirements a : ℚ))
  else 0

/-- `coverage_percentage`: `total_implemented / total_requirements * 100`,
0 when `total_requirements` is 0. -/
def coverage_percentage (a : ReqData.AlignmentScores) : ℚ :=
  if 0 < total_requirements a then
    (total_implemented a : ℚ) / (total_requirements a : ℚ) * 100
  else 0

/-- The weighted average exactly as the specification words it: the sum of
`confidence_i * total_i` over the categories divided by the total number of
requirements, zero-total categories contributing zero weight; 0 overall when
there are no requirements at all. -/
def specWeightedAverage (a : ReqData.AlignmentScores) : ℚ :=
  let T : ℚ := ((ReqData.categories a).map (fun c => (c.total : ℚ))).sum
  if T = 0 then 0
  else ((ReqData.categories a).map
    (fun c => c.average_confidence_score * (c.total : ℚ))).sum / T

end ConsolidatedReporter

/-- C6: the reporter's overall alignment score is exactly the per-category
weighted average of confidences (weights: each category's share of the total
requirement count, zero-total categories contributing zero weight); it lies
in [0, 100] whenever every category confidence does; and the coverage
percentage is `implemented / total * 100`, defined as 0 when the total is 0. -/
theorem requirements_weighted_average_and_coverage
    (a : ReqData.AlignmentScores)
    (hconf : ∀ c ∈ ReqData.categories a,
        0 ≤ c.average_confidence_score ∧ c.average_confidence_score ≤ 100) :
    ConsolidatedReporter.overall_score a = ConsolidatedReporter.specWeightedAverage a
    ∧ 0 ≤ ConsolidatedReporter.overall_score a
    ∧ ConsolidatedReporter.overall_score a ≤ 100
    ∧ (ConsolidatedReporter.total_requirements a = 0 →
        ConsolidatedReporter.coverage_percentage a = 0)
    ∧ (0 < ConsolidatedReporter.total_requirements a →
        ConsolidatedReporter.coverage_percentage a =
          (ConsolidatedReporter.total_implemented a : ℚ) /
            (ConsolidatedReporter.total_requirements a : ℚ) * 100) := by
  obtain ⟨⟨t1, i1, n1, c1⟩, ⟨t2, i2, n2, c2⟩, ⟨t3, i3, n3, c3⟩, ⟨t4, i4, n4, c4⟩⟩ := a
  obtain ⟨hc1l, hc1u⟩ := hconf ⟨t1, i1, n1, c1⟩ (by simp [ReqData.categories])
  obtain ⟨hc2l, hc2u⟩ := hconf ⟨t2, i2, n2, c2⟩ (by simp [ReqData.categories])
  obtain ⟨hc3l, hc3u⟩ := hconf ⟨t3, i3, n3, c3⟩ (by simp [ReqData.categories])
  obtain ⟨hc4l, hc4u⟩ := hconf ⟨t4, i4, n4, c4⟩ (by simp [ReqData.categories])
  dsimp only at hc1l hc1u hc2l hc2u hc3l hc3u hc4l hc4u
  simp only [ConsolidatedReporter.overall_score,
    ConsolidatedReporter.specWeightedAverage,
    ConsolidatedReporter.coverage_percentage,
    ConsolidatedReporter.total_requirements,
    ConsolidatedReporter.total_implemented, ReqData.categories,
    List.map_cons, List.map_nil, List.sum_cons, List.sum_nil, add_zero]
  by_cases hT : 0 < t1 + t2 + t3 + t4
  · have hTq : (0 : ℚ) < (t1 : ℚ) + t2 + t3 + t4 := by exact_mod_cast hT
    have hTq' : ((t1 : ℚ) + t2 + t3 + t4) ≠ 0 := ne_of_gt hTq
    have hcast : (((t1 + t2 + t3 + t4 : ℕ)) : ℚ) = (t1 : ℚ) + t2 + t3 + t4 := by
      push_cast
      ring
    rw [if_pos hT, if_pos hT,
      if_neg (show ¬((t1 : ℚ) + ((t2 : ℚ) + ((t3 : ℚ) + (t4 : ℚ))) = 0) by
        intro hh
        exact hTq' (by linarith))]
    rw [hcast]
    refine ⟨?_, ?_, ?_, ?_, ?_⟩
    · rw [eq_div_iff (show ((t1 : ℚ) + ((t2 : ℚ) + ((t3 : ℚ) + (t4 : ℚ))) : ℚ) ≠ 0 by
        intro hh
        exact hTq' (by linarith))]
      field_simp
      ring
    · have h1 : (0 : ℚ) ≤ (t1 : ℚ) / ((t1 : ℚ) + t2 + t3 + t4) :=
        div_nonneg (by positivity) (le_of_lt hTq)
      have h2 : (0 : ℚ) ≤ (t2 : ℚ) / ((t1 : ℚ) + t2 + t3 + t4) :=
        div_nonneg (by positivity) (le_of_lt hTq)
      have h3 : (0 : ℚ) ≤ (t3 : ℚ) / ((t1 : ℚ) + t2 + t3 + t4) :=
        div_nonneg (by positivity) (le_of_lt hTq)
      have h4 : (0 : ℚ) ≤ (t4 : ℚ) / ((t1 : ℚ) + t2 + t3 + t4) :=
        div_nonneg (by positivity) (le_of_lt hTq)
      have e1 := mul_nonneg hc1l h1
      have e2 := mul_nonneg hc2l h2
      have e3 := mul_nonneg hc3l h3
      have e4 := mul_nonneg hc4l h4
      linarith
    · have ht1 : (0 : ℚ) ≤ (t1 : ℚ) := by positivity
      have ht2 : (0 : ℚ) ≤ (t2 : ℚ) := by positivity
      have ht3 : (0 : ℚ) ≤ (t3 : ℚ) := by positivity
      have ht4 : (0 : ℚ) ≤ (t4 : ℚ) := by positivity
      have k1 : (0 : ℚ) ≤ (100 - c1) * (t1 : ℚ) := mul_nonneg (by linarith) ht1
      have k2 : (0 : ℚ) ≤ (100 - c2) * (t2 : ℚ) := mul_nonneg (by linarith) ht2
      have k3 : (0 : ℚ) ≤ (100 - c3) * (t3 : ℚ) := mul_nonneg (by linarith) ht3
      have k4 : (0 : ℚ) ≤ (100 - c4) * (t4 : ℚ) := mul_nonneg (by linarith) ht4
      have hsum : c1 * ((t1 : ℚ) / ((t1 : ℚ) + t2 + t3 + t4)) +
          c2 * ((t2 : ℚ) / ((t1 : ℚ) + t2 + t3 + t4)) +
          c3 * ((t3 : ℚ) / ((t1 : ℚ) + t2 + t3 + t4)) +
          c4 * ((t4 : ℚ) / ((t1 : ℚ) + t2 + t3 + t4)) =
          (c1 * t1 + c2 * t2 + c3 * t3 + c4 * t4) / ((t1 : ℚ) + t2 + t3 + t4) := by
        field_simp
      rw [hsum, div_le_iff hTq]
      nlinarith [k1, k2, k3, k4]
    · intro h0
      omega
    · intro _
      rfl
  · have ht0 : t1 = 0 ∧ t2 = 0 ∧ t3 = 0 ∧ t4 = 0 := by omega
    obtain ⟨rfl, rfl, rfl, rfl⟩ := ht0
    norm_num

/-- Witness for C6: two categories with different totals (4 at confidence 80,
6 at confidence 50) and two empty categories; the weighted score is 62. -/
theorem requirements_weighted_average_and_coverage_witness :
    ConsolidatedReporter.overall_score
        ⟨⟨4, 3, 1, 80⟩, ⟨6, 3, 3, 50⟩, ⟨0, 0, 0, 0⟩, ⟨0, 0, 0, 0⟩⟩
      = ConsolidatedReporter.specWeightedAverage
          ⟨⟨4, 3, 1, 80⟩, ⟨6, 3, 3, 50⟩, ⟨0, 0, 0, 0⟩, ⟨0, 0, 0, 0⟩⟩
    ∧ 0 ≤ ConsolidatedReporter.overall_score
        ⟨⟨4, 3, 1, 80⟩, ⟨6, 3, 3, 50⟩, ⟨0, 0, 0, 0⟩, ⟨0, 0, 0, 0⟩⟩
    ∧ ConsolidatedReporter.overall_score
        ⟨⟨4, 3, 1, 80⟩, ⟨6, 3, 3, 50⟩, ⟨0, 0, 0, 0⟩, ⟨0, 0, 0, 0⟩⟩ ≤ 100 := by
  have h := requirements_weighted_average_and_coverage
    ⟨⟨4, 3, 1, 80⟩, ⟨6, 3, 3, 50⟩, ⟨0, 0, 0, 0⟩, ⟨0, 0, 0, 0⟩⟩
    (by
      intro c hc
      simp only [ReqData.categories, List.mem_cons, List.not_mem_nil, or_false] at hc
      rcases hc with rfl | rfl | rfl | rfl <;> norm_num)
  exact ⟨h.1, h.2.1, h.2.2.1⟩

/-! ## `CodeStandardsChecker` (src/tools/code_standard_tool.py)

The per-tool subprocess invocations are external collaborators entering as a
`toolRun : file_name → tool → output` argument; everything else
(language detection, report assembly) is deterministic. -/

namespace CodeStandards

/-- The checker's `language_map` keyed by file extension. -/
def language_map (ext : String) : Option String :=
  if ext == ".py" then some "python"
  else if ext == ".java" then some "java"
  else if ext == ".js" then some "javascript"
  else if ext == ".ts" then some "javascript"
  else if ext == ".cpp" then some "cpp"
  else if ext == ".c" then some "cpp"
  else if ext == ".h" then some "cpp"
  else if ext == ".hpp" then some "cpp"
  else none

/-- The basename portion of a path: the characters after the last path
separator (the repository runs on Windows and POSIX paths; both separators
are honoured). -/
def baseNameChars (cs : List Char) : List Char :=
  ((cs.reverse.takeWhile (fun c => !(c == '/' || c == '\x5c'))).reverse)

/-- The suffix of a character list starting at its last '.', if any. -/
def lastDotSuffix : List Char → Option (List Char)
  | [] => none
  | c :: cs =>
    match lastDotSuffix cs with
    | some s => some s
    | none => if c == '.' then some (c :: cs) else none

/-- `os.path.splitext(file_path)[-1]`: the extension of the basename from
its last dot; leading dots of the basename never start an extension. -/
def splitextExt (p : String) : String :=
  let base := baseNameChars p.data
  let rest := base.dropWhile (fun c => c == '.')
  match lastDotSuffix rest with
  | some s => ⟨s⟩
  | none => ""

/-- Lower-case a string character by character (`.lower()`). -/
def lowerStr (s : String) : String :=
  ⟨s.data.map Char.toLower⟩

/-- `CodeStandardsChecker.detect_language`: extension lookup first, then the
content heuristics, finally `"unknown"`. -/
def detect_language (code : String) (file_path : Option String) : String :=
  let extMatch : Option String :=
    match file_path with
    | some p => language_map (lowerStr (splitextExt p))
    | none => none
  match extMatch with
  | some lang => lang
  | none =>
    if CodeReviewer.strContains code "import java" then "java"
    else if CodeReviewer.strContains code "def " &&
        (CodeReviewer.strContains code "import" ||
          CodeReviewer.strContains code "from ") then "python"
    else if CodeReviewer.strContains code "function " ||
        CodeReviewer.strContains code "console.log" ||
        CodeReviewer.strContains code "const " ||
        CodeReviewer.strContains code "let " then "javascript"
    else if CodeReviewer.strContains code "#include" then "cpp"
    else "unknown"

/-- One `{"tool": ..., "result": ...}` entry of a standards report. -/
structure ToolNote where
  tool : String
  result : String
  deriving Repr, DecidableEq

/-- The per-file report assembled by `analyze_single_file`
(`{file_name, language, code, analysis}`). -/
structure StdReport where
  file_name : String
  language : String
  code : String
  analysis : List ToolNote
  deriving Repr, DecidableEq

/-- `analyze_single_file`: the language is `file_info.get("language") or
detect_language(code, file_path)` — the detection fallback only runs when
the `language` key is missing or its value is falsy (the empty string); any
other string, including `"unknown"`, is kept as is.  Tool dispatch then
follows the detected language. -/
def analyze_single_file (toolRun : String → String → String)
    (file_info : FileRec) : StdReport :=
  let code := file_info.code
  let file_path := file_info.file_name
  let lang :=
    match file_info.language with
    | some l => if l.isEmpty then detect_language code (some file_path) else l
    | none => detect_language code (some file_path)
  if CodeReviewer.isBlank code then
    { file_name := file_path, language := lang, code := code
      analysis := [⟨"General", "File is empty or contains only whitespace"⟩] }
  else if lang == "python" then
    { file_name := file_path, language := lang, code := code
      analysis :=
        [⟨"Pylint", toolRun file_path "Pylint"⟩,
         ⟨"Flake8", toolRun file_path "Flake8"⟩,
         ⟨"Ruff", toolRun file_path "Ruff"⟩,
         ⟨"Bandit", toolRun file_path "Bandit"⟩,
         ⟨"MyPy", toolRun file_path "MyPy"⟩] }
  else if lang == "java" then
    { file_name := file_path, language := lang, code := code
      analysis :=
        [⟨"Checkstyle", toolRun file_path "Checkstyle"⟩,
         ⟨"PMD", toolRun file_path "PMD"⟩] }
  else if lang == "javascript" then
    { file_name := file_path, language := lang, code := code
      analysis :=
        [⟨"ESLint", toolRun file_path "ESLint"⟩,
         ⟨"Prettier", toolRun file_path "Prettier"⟩] }
  else if lang == "cpp" then
    { file_name := file_path, language := lang, code := code
      analysis :=
        [⟨"clang-tidy", toolRun file_path "clang-tidy"⟩,
         ⟨"cppcheck", toolRun file_path "cppcheck"⟩] }
  else
    { file_name := file_path, language := lang, code := code
      analysis := [⟨"Semgrep", toolRun file_path "Semgrep"⟩] }

/-- `analyze_files` over the state's file list (the caller stores the result
back into `state["files"]`). -/
def analyze_files (toolRun : String → String → String)
    (files : List FileRec) : List StdReport :=
  files.map (analyze_single_file toolRun)

end CodeStandards

/-! ## `CodeReviewerAgent` (src/agents/code_reviewer_agent.py)

State, workflow graph and node handlers.  Each handler is a function of the
entering state, the session store, and the outcome of its external tool call
(`Except.error` models the `except Exception` branch of its `try` block);
it returns the state and store it leaves behind. -/

namespace Agent

/-- The value `state["files"]` holds: the ingested file records, replaced by
the standards stage with its report list (`state["files"] = results`). -/
inductive FilesSlot where
  | inputs (fs : List FileRec)
  | reports (rs : List CodeStandards.StdReport)
  deriving Repr, DecidableEq

/-- The dict returned by `RequirementValidator.validate_requirements`
(metadata keys `timestamp`/`files_analyzed`/`requirements_analyzed` are
carried opaquely and omitted). -/
inductive ReqValidationValue where
  | skipped (reason : String)
  | errDict (msg : String)
  | analysis (a : RequirementValidator.ReqAnalysis)
  deriving Repr, DecidableEq

/-- The dict returned by `SpecValidator.validate_code`. -/
inductive SpecNodeValue where
  | errDict (msg : String)
  | ok (r : SpecValidator.SpecValidationResult)
  deriving Repr, DecidableEq

/-- The dict returned by the deep evaluator tool (only the keys the node
reads). -/
inductive DeepEvalValue where
  | errDict (msg : String)
  | ok (overall_score : ℚ) (summary : String)
  deriving Repr, DecidableEq

/-- The dict produced by `SecurityQualityAnalyzer.analyze_security` for the
`security_analysis` slot (only the keys the node reads). -/
inductive SecNodeValue where
  | errDict (msg : String)
  | ok (file_analyses : List SecurityAnalyzer.SecFileAnalysis)
      (overall : SecurityAnalyzer.OverallAssessment)
  deriving Repr, DecidableEq

/-- The dict returned by the consolidated reporter tool. -/
inductive ReportValue where
  | errDict (msg : String)
  | ok (html_report_path : Option String) (report_directory : Option String)
      (json_summary_path : Option String)
  deriving Repr, DecidableEq

/-- `CodeReviewState`: the shared dict threaded through the pipeline; a
missing key is `none`. -/
structure CodeReviewState where
  code : Option String := none
  files : Option FilesSlot := none
  file_paths : Option (List String) := none
  requirements : Option (List (String × List String)) := none
  session_id : Option String := none
  standards_result : Option (List CodeStandards.StdReport) := none
  requirement_validation : Option ReqValidationValue := none
  deep_evaluation : Option DeepEvalValue := none
  spec_validation : Option SpecNodeValue := none
  security_analysis : Option SecNodeValue := none
  consolidated_report : Option ReportValue := none
  error : Option String := none
  current_step : Option String := none
  deriving Repr, DecidableEq

/-- `_detect_language_from_extension`: fixed extension table with default
`'unknown'` (note: `'unknown'`, not `None` or `''`). -/
def detect_language_from_extension (extension : String) : String :=
  let e := CodeStandards.lowerStr extension
  if e == ".py" then "python"
  else if e == ".java" then "java"
  else if e == ".js" then "javascript"
  else if e == ".ts" then "typescript"
  else if e == ".cpp" then "cpp"
  else if e == ".c" then "c"
  else if e == ".h" then "c"
  else if e == ".hpp" then "cpp"
  else if e == ".cs" then "csharp"
  else if e == ".go" then "go"
  else if e == ".rs" then "rust"
  else if e == ".php" then "php"
  else if e == ".rb" then "ruby"
  else if e == ".swift" then "swift"
  else if e == ".kt" then "kotlin"
  else if e == ".scala" then "scala"
  else "unknown"

/-- `_calculate_standards_summary` over the `files` key of the standards
result: count tool entries whose non-empty result mentions neither
"No issues" nor "No output". -/
def calculate_standards_summary
    (standards_result : Option (List CodeStandards.StdReport)) : String :=
  match standards_result with
  | none => "No standards data"
  | some files =>
    let total_issues := (files.map (fun fd =>
      (fd.analysis.filter (fun a =>
        !a.result.isEmpty &&
          !CodeReviewer.strContains a.result "No issues" &&
          !CodeReviewer.strContains a.result "No output")).length)).sum
    let analyzed_files := files.length
    s!"{analyzed_files} files, {total_issues} issues"

/-- `_save_node_result`: lazily generate a session id when the state has
none (or an empty one), then persist the message under the node's key.
`freshSid` and `ts` stand for the generated UUID and the wall-clock
timestamp.  (A failure of the underlying file write is swallowed by the
method; the successful write is modelled.) -/
def agent_save_node_result (freshSid ts : String) (st : CodeReviewState)
    (store : CodeReviewer.Sessions) (node_name result_message : String) :
    CodeReviewState × CodeReviewer.Sessions :=
  let st :=
    if CodeReviewer.truthyStr st.session_id then st
    else { st with session_id := some freshSid }
  let sid := st.session_id.getD freshSid
  (st, CodeReviewer.save_node_result store sid ts node_name result_message)

/-- One `{file_name, file_path, code, extension}` (or error) record from
`FileReader.read_files_from_paths`. -/
structure FileInfo where
  file_name : String
  extension : String
  code : String
  error : Option String
  deriving Repr, DecidableEq

/-- The valid files kept by `read_files_node`: reader records without an
`error` key, normalized with the language detected from their extension. -/
def valid_files_of (files_info : List FileInfo) : List FileRec :=
  (files_info.filter (fun fi => fi.error.isNone)).map (fun fi =>
    { file_name := fi.file_name
      language := some (detect_language_from_extension fi.extension)
      code := fi.code })

/-- The message-and-save epilogue shared by the fall-through paths of
`read_files_node`. -/
def read_files_finish (freshSid ts : String) (st : CodeReviewState)
    (store : CodeReviewer.Sessions) : CodeReviewState × CodeReviewer.Sessions :=
  let files_count :=
    match st.files with
    | some (.inputs fs) => fs.length
    | some (.reports rs) => rs.length
    | none => 0
  let msg :=
    match st.error with
    | some e =>
      if e.isEmpty then s!"Successfully read {files_count} files"
      else s!"Error reading files: {e}"
    | none => s!"Successfully read {files_count} files"
  agent_save_node_result freshSid ts st store "read_files" msg

/-- `read_files_node`.  The two failure `return state` paths (zero valid
files, no input at all) leave the node *before* the save epilogue; the
`except` path (`exc`) records the error and still reaches it. -/
def read_files_node (files_info : List FileInfo) (exc : Option String)
    (freshSid ts : String) (st : CodeReviewState)
    (store : CodeReviewer.Sessions) : CodeReviewState × CodeReviewer.Sessions :=
  let st := { st with current_step := some "read_files" }
  match exc with
  | some m =>
    read_files_finish freshSid ts
      { st with error := some s!"Error reading files: {m}" } store
  | none =>
    if CodeReviewer.truthyList st.file_paths then
      let valid_files := valid_files_of files_info
      let st := { st with files := some (.inputs valid_files) }
      if valid_files.isEmpty then
        ({ st with error := some "No valid files found to analyze" }, store)
      else
        read_files_finish freshSid ts st store
    else if CodeReviewer.truthyStr st.code then
      read_files_finish freshSid ts
        { st with files := some (.inputs
            [⟨"main.py", some "python", st.code.getD ""⟩]) } store
    else
      ({ st with error := some "No code or file paths provided" }, store)

/-- `standards_check_node`: guard on `state.get("error")`, run the checker
over `state["files"]` (replacing that key with the reports and storing them
as `standards_result`), then persist the summary message. -/
def standards_check_node (toolRun : String → String → String)
    (exc : Option String) (freshSid ts : String) (st : CodeReviewState)
    (store : CodeReviewer.Sessions) : CodeReviewState × CodeReviewer.Sessions :=
  if CodeReviewer.truthyStr st.error then (st, store)
  else
    let st := { st with current_step := some "standards_check" }
    let st :=
      match exc with
      | some m => { st with error := some s!"Standards analysis failed: {m}" }
      | none =>
        let input_files : List FileRec :=
          match st.files with
          | some (.inputs fs) => fs
          | some (.reports rs) =>
            rs.map (fun r => ⟨r.file_name, some r.language, r.code⟩)
          | none => []
        let results := CodeStandards.analyze_files toolRun input_files
        { st with files := some (.reports results)
                  standards_result := some results }
    let msg :=
      match st.error with
      | some e =>
        if e.isEmpty then
          s!"Standards analysis completed: {calculate_standards_summary st.standards_result}"
        else s!"Standards analysis failed: {e}"
      | none =>
        s!"Standards analysis completed: {calculate_standards_summary st.standards_result}"
    agent_save_node_result freshSid ts st store "standards_check" msg

/-- The compliance score the node logs/saves:
`state.get("spec_validation", {}).get("overall_metrics", {}).get("overall_compliance_score", 0)`. -/
def spec_score_of (v : Option SpecNodeValue) : Int :=
  match v with
  | some (.ok r) => r.overall_metrics.overall_compliance_score
  | _ => 0

/-- `spec_validation_node`. -/
def spec_validation_node (specOutcome : Except String SpecNodeValue)
    (freshSid ts : String) (st : CodeReviewState)
    (store : CodeReviewer.Sessions) : CodeReviewState × CodeReviewer.Sessions :=
  if CodeReviewer.truthyStr st.error then (st, store)
  else
    let st := { st with current_step := some "spec_validation" }
    let st :=
      match specOutcome with
      | .error m =>
        { st with error := some s!"Specification validation failed: {m}" }
      | .ok v => { st with spec_validation := some v }
    let msg :=
      match st.error with
      | some e =>
        if e.isEmpty then
          s!"Specification validation completed with {spec_score_of st.spec_validation}% compliance score"
        else s!"Specification validation failed: {e}"
      | none =>
        s!"Specification validation completed with {spec_score_of st.spec_validation}% compliance score"
    agent_save_node_result freshSid ts st store "spec_validation" msg

/-- The alignment score the node saves (Python renders it with `:.1%`; the
numeric rendering is modelled by the canonical rational printer). -/
def req_score_of (v : Option ReqValidationValue) : ℚ :=
  match v with
  | some (.analysis a) => a.alignment_analysis.overall_alignment_score
  | _ => 0

/-- Is the stored requirement validation the skip marker
(`.get("skipped", False)`)? -/
def req_skipped (v : Option ReqValidationValue) : Bool :=
  match v with
  | some (.skipped _) => true
  | _ => false

/-- `requirement_validation_node`: guard on `state.get("error")`, then —
*before any tool call or save* — store the fixed skip record and `return
state` when no requirements are present. -/
def requirement_validation_node (reqOutcome : Except String ReqValidationValue)
    (freshSid ts : String) (st : CodeReviewState)
    (store : CodeReviewer.Sessions) : CodeReviewState × CodeReviewer.Sessions :=
  if CodeReviewer.truthyStr st.error then (st, store)
  else
    let st := { st with current_step := some "requirement_validation" }
    if !CodeReviewer.truthyList st.requirements then
      let skipRecord : ReqValidationValue :=
        .skipped "No requirements provided for validation"
      ({ st with requirement_validation := some skipRecord }, store)
    else
      let st :=
        match reqOutcome with
        | .error m =>
          { st with error := some s!"Requirement validation failed: {m}" }
        | .ok v => { st with requirement_validation := some v }
      let msg :=
        match st.error with
        | some e =>
          if e.isEmpty then
            if req_skipped st.requirement_validation then
              "Requirement validation skipped: No requirements provided"
            else
              s!"Requirement validation completed with {req_score_of st.requirement_validation} alignment score"
          else s!"Requirement validation failed: {e}"
        | none =>
          if req_skipped st.requirement_validation then
            "Requirement validation skipped: No requirements provided"
          else
            s!"Requirement validation completed with {req_score_of st.requirement_validation} alignment score"
      agent_save_node_result freshSid ts st store "requirement_validation" msg

/-- `deep_evaluation_node` (not wired into the compiled graph, but its
handler carries the same standing guard). -/
def deep_evaluation_node (deepOutcome : Except String DeepEvalValue)
    (freshSid ts : String) (st : CodeReviewState)
    (store : CodeReviewer.Sessions) : CodeReviewState × CodeReviewer.Sessions :=
  if CodeReviewer.truthyStr st.error then (st, store)
  else
    let st := { st with current_step := some "deep_evaluation" }
    let st :=
      match deepOutcome with
      | .error m => { st with error := some s!"Deep evaluation failed: {m}" }
      | .ok v => { st with deep_evaluation := some v }
    let score :=
      match st.deep_evaluation with
      | some (.ok sc _) => sc
      | _ => 0
    let msg :=
      match st.error with
      | some e =>
        if e.isEmpty then s!"Deep evaluation completed with {score}/1.0 overall score"
        else s!"Deep evaluation failed: {e}"
      | none => s!"Deep evaluation completed with {score}/1.0 overall score"
    agent_save_node_result freshSid ts st store "deep_evaluation" msg

/-- `security_analysis_node` (not wired into the compiled graph, but its
handler carries the same standing guard). -/
def security_analysis_node (secOutcome : Except String SecNodeValue)
    (freshSid ts : String) (st : CodeReviewState)
    (store : CodeReviewer.Sessions) : CodeReviewState × CodeReviewer.Sessions :=
  if CodeReviewer.truthyStr st.error then (st, store)
  else
    let st := { st with current_step := some "security_analysis" }
    let st :=
      match secOutcome with
      | .error m => { st with error := some s!"Security analysis failed: {m}" }
      | .ok v => { st with security_analysis := some v }
    let score : ℚ :=
      match st.security_analysis with
      | some (.ok _ overall) => overall.average_security_score.getD 0
      | _ => 0
    let rating :=
      match st.security_analysis with
      | some (.ok _ overall) => overall.security_rating
      | _ => "UNKNOWN"
    let msg :=
      match st.error with
      | some e =>
        if e.isEmpty then s!"Security analysis completed: {rating} rating ({score}/10)"
        else s!"Security analysis failed: {e}"
      | none => s!"Security analysis completed: {rating} rating ({score}/10)"
    agent_save_node_result freshSid ts st store "security_analysis" msg

/-- `generate_reports_node`: when an error is already set, the node logs a
skip notice and returns *without* saving anything; otherwise it runs the
reporter, validates the artifact (`htmlExists` models
`os.path.exists(html_path)`), and persists its message. -/
def generate_reports_node (reportOutcome : Except String ReportValue)
    (htmlExists : Bool) (freshSid ts : String) (st : CodeReviewState)
    (store : CodeReviewer.Sessions) : CodeReviewState × CodeReviewer.Sessions :=
  if CodeReviewer.truthyStr st.error then (st, store)
  else
    let st := { st with current_step := some "generate_reports" }
    let st :=
      match reportOutcome with
      | .error m => { st with error := some s!"Report generation failed: {m}" }
      | .ok v =>
        let st := { st with consolidated_report := some v }
        match v with
        | .errDict e => { st with error := some e }
        | .ok html _dir _json =>
          if CodeReviewer.truthyStr html && htmlExists then st
          else { st with error := some "Report files were not created properly" }
    let html_path :=
      match st.consolidated_report with
      | some (.ok html _ _) => html
      | _ => none
    let msg :=
      match st.error with
      | some e =>
        if e.isEmpty then
          match html_path with
          | some p => s!"Reports generated successfully: {p}"
          | none => "Report generation completed but no HTML path found"
        else s!"Report generation failed: {e}"
      | none =>
        match html_path with
        | some p => s!"Reports generated successfully: {p}"
        | none => "Report generation completed but no HTML path found"
    agent_save_node_result freshSid ts st store "generate_reports" msg

/-- The edges registered by `_build_workflow`: plain `add_edge` calls only —
no `add_conditional_edges` appears anywhere in the repository. -/
def workflowEdges : List (String × String) :=
  [("read_files", "standards_check"),
   ("standards_check", "spec_validation"),
   ("spec_validation", "requirement_validation"),
   ("requirement_validation", "generate_reports"),
   ("generate_reports", "END")]

/-- The successor the compiled graph picks after a node finishes.  Because
`_build_workflow` registers only unconditional edges, the lookup consults
the edge table alone; the state argument (which a conditional edge's
predicate would inspect) is ignored. -/
def graphSuccessor (st : CodeReviewState) (node : String) : Option String :=
  ((workflowEdges.filter (fun e => e.1 == node)).map (fun e => e.2)).head?

/-- The routing the specification prescribes for the conditional edge after
ingestion, as a predicate outcome over the state of the external fetch. -/
inductive IngestionOutcome where
  | fetchUsableFiles
  | fetchSkippedWithLocalPaths
  | fetchFailed
  deriving Repr, DecidableEq

/-- Successor stage demanded by the specification's routing policy. -/
def specIngestionRoute : IngestionOutcome → String
  | .fetchUsableFiles => "standards_check"
  | .fetchSkippedWithLocalPaths => "read_files"
  | .fetchFailed => "generate_reports"

/-- Does some record of the store carry a summary under this node key? -/
def storeHas (store : CodeReviewer.Sessions) (node : String) : Bool :=
  store.any (fun r => (r.results.lookup node).isSome)

theorem storeHas_save (store : CodeReviewer.Sessions) (sid ts node msg : String) :
    storeHas (CodeReviewer.save_node_result store sid ts node msg) node = true := by
  induction store with
  | nil => simp [CodeReviewer.save_node_result, storeHas, List.any]
  | cons r rest ih =>
    by_cases hr : r.session_id = sid
    · have hb : (r.session_id == sid) = true := by simp [hr]
      simp [CodeReviewer.save_node_result, hb, storeHas, List.any]
    · have hb : (r.session_id == sid) = false := by simp [hr]
      simp only [CodeReviewer.save_node_result, hb, Bool.false_eq_true, if_false]
      simp only [storeHas, List.any] at ih ⊢
      rw [ih]
      simp

end Agent

/-- C1 counterexample: in the compiled workflow the stage following the
ingestion node (`read_files`) is the single fixed edge to `standards_check`,
even for a state in which ingestion failed entirely — where the claimed
routing policy demands going straight to the terminal reporting stage. -/
theorem conditional_routing_claim_fails :
    Agent.graphSuccessor { error := some "No code or file paths provided" }
        "read_files" = some "standards_check"
    ∧ Agent.specIngestionRoute .fetchFailed = "generate_reports"
    ∧ (some "standards_check" : Option String) ≠ some "generate_reports" := by
  refine ⟨rfl, rfl, by decide⟩

/-- C1 (amended): `_build_workflow` registers only unconditional edges, so
the successor of every node — in particular of the ingestion node — is a
fixed edge that does not depend on the state: there is no predicate-driven
conditional routing after ingestion, and the successor of `read_files` is
always `standards_check`. -/
theorem workflow_successor_is_fixed :
    (∀ (st st' : Agent.CodeReviewState) (node : String),
        Agent.graphSuccessor st node = Agent.graphSuccessor st' node)
    ∧ (∀ st : Agent.CodeReviewState,
        Agent.graphSuccessor st "read_files" = some "standards_check") :=
  ⟨fun _ _ _ => rfl, fun _ => rfl⟩

/-- C2: with the fault field already set (truthy), every analysis handler —
standards check, spec validation, requirement validation, deep evaluation,
security analysis — returns the state (and the session store) exactly
unchanged: no slot written, no field modified, the fault not cleared. -/
theorem analysis_nodes_noop_under_fault
    (st : Agent.CodeReviewState) (store : CodeReviewer.Sessions)
    (toolRun : String → String → String) (excStd : Option String)
    (specOutcome : Except String Agent.SpecNodeValue)
    (reqOutcome : Except String Agent.ReqValidationValue)
    (deepOutcome : Except String Agent.DeepEvalValue)
    (secOutcome : Except String Agent.SecNodeValue)
    (freshSid ts : String)
    (h : CodeReviewer.truthyStr st.error = true) :
    Agent.standards_check_node toolRun excStd freshSid ts st store = (st, store)
    ∧ Agent.spec_validation_node specOutcome freshSid ts st store = (st, store)
    ∧ Agent.requirement_validation_node reqOutcome freshSid ts st store = (st, store)
    ∧ Agent.deep_evaluation_node deepOutcome freshSid ts st store = (st, store)
    ∧ Agent.security_analysis_node secOutcome freshSid ts st store = (st, store) := by
  refine ⟨?_, ?_, ?_, ?_, ?_⟩
  · simp [Agent.standards_check_node, h]
  · simp [Agent.spec_validation_node, h]
  · simp [Agent.requirement_validation_node, h]
  · simp [Agent.deep_evaluation_node, h]
  · simp [Agent.security_analysis_node, h]

/-- Witness for C2 at a concrete faulted state. -/
theorem analysis_nodes_noop_under_fault_witness :
    Agent.standards_check_node (fun _ _ => "No issues found.") none "S" "T"
        { error := some "No valid files found to analyze" } []
      = ({ error := some "No valid files found to analyze" }, [])
    ∧ Agent.spec_validation_node (.error "boom") "S" "T"
        { error := some "No valid files found to analyze" } []
      = ({ error := some "No valid files found to analyze" }, [])
    ∧ Agent.requirement_validation_node (.error "boom") "S" "T"
        { error := some "No valid files found to analyze" } []
      = ({ error := some "No valid files found to analyze" }, [])
    ∧ Agent.deep_evaluation_node (.error "boom") "S" "T"
        { error := some "No valid files found to analyze" } []
      = ({ error := some "No valid files found to analyze" }, [])
    ∧ Agent.security_analysis_node (.error "boom") "S" "T"
        { error := some "No valid files found to analyze" } []
      = ({ error := some "No valid files found to analyze" }, []) :=
  analysis_nodes_noop_under_fault
    { error := some "No valid files found to analyze" } []
    (fun _ _ => "No issues found.") none
    (.error "boom") (.error "boom") (.error "boom") (.error "boom")
    "S" "T" (by decide)

/-- C4 counterexample: a stage that no-ops because the fault is already set
persists nothing — running the standards stage (and the terminal reporting
stage) on a faulted state leaves the session store empty, no summary string
is written for them. -/
theorem fault_noop_stage_persists_nothing :
    (Agent.standards_check_node (fun _ _ => "No issues found.") none "S" "T"
        { error := some "No code or file paths provided" } []).2 = []
    ∧ (Agent.generate_reports_node (.error "boom") false "S" "T"
        { error := some "No code or file paths provided" } []).2 = []
    ∧ CodeReviewer.truthyStr (some "No code or file paths provided") = true := by
  refine ⟨rfl, rfl, by decide⟩

/-- C4 (amended): a stage persists its one-line summary exactly when its
handler reaches the save call.  Under a pre-existing fault, every guarded
stage — standards check, spec validation, requirement validation, deep
evaluation, security analysis and the terminal reporting stage — returns
before saving and the store is untouched.  Without a fault, each of those
stages persists a summary under its own key (requirement validation only
when requirements are present; when they are absent it stores the skip
record and returns without saving).  The ingestion stage persists a summary
when it keeps at least one valid file (or when its body raised), and
persists nothing on its two failure returns (zero valid files; no input). -/
theorem stage_summary_persistence :
    (∀ (toolRun : String → String → String) (exc : Option String)
        (specOutcome : Except String Agent.SpecNodeValue)
        (reqOutcome : Except String Agent.ReqValidationValue)
        (deepOutcome : Except String Agent.DeepEvalValue)
        (secOutcome : Except String Agent.SecNodeValue)
        (reportOutcome : Except String Agent.ReportValue) (htmlExists : Bool)
        (freshSid ts : String) (st : Agent.CodeReviewState)
        (store : CodeReviewer.Sessions),
      CodeReviewer.truthyStr st.error = true →
        (Agent.standards_check_node toolRun exc freshSid ts st store).2 = store
        ∧ (Agent.spec_validation_node specOutcome freshSid ts st store).2 = store
        ∧ (Agent.requirement_validation_node reqOutcome freshSid ts st store).2 = store
        ∧ (Agent.deep_evaluation_node deepOutcome freshSid ts st store).2 = store
        ∧ (Agent.security_analysis_node secOutcome freshSid ts st store).2 = store
        ∧ (Agent.generate_reports_node reportOutcome htmlExists
            freshSid ts st store).2 = store)
    ∧ (∀ (toolRun : String → String → String) (exc : Option String)
        (specOutcome : Except String Agent.SpecNodeValue)
        (deepOutcome : Except String Agent.DeepEvalValue)
        (secOutcome : Except String Agent.SecNodeValue)
        (reportOutcome : Except String Agent.ReportValue) (htmlExists : Bool)
        (freshSid ts : String) (st : Agent.CodeReviewState)
        (store : CodeReviewer.Sessions),
      CodeReviewer.truthyStr st.error = false →
        Agent.storeHas (Agent.standards_check_node toolRun exc
            freshSid ts st store).2 "standards_check" = true
        ∧ Agent.storeHas (Agent.spec_validation_node specOutcome
            freshSid ts st store).2 "spec_validation" = true
        ∧ Agent.storeHas (Agent.deep_evaluation_node deepOutcome
            freshSid ts st store).2 "deep_evaluation" = true
        ∧ Agent.storeHas (Agent.security_analysis_node secOutcome
            freshSid ts st store).2 "security_analysis" = true
        ∧ Agent.storeHas (Agent.generate_reports_node reportOutcome htmlExists
            freshSid ts st store).2 "generate_reports" = true)
    ∧ (∀ (reqOutcome : Except String Agent.ReqValidationValue)
        (freshSid ts : String) (st : Agent.CodeReviewState)
        (store : CodeReviewer.Sessions),
      CodeReviewer.truthyStr st.error = false →
        (CodeReviewer.truthyList st.requirements = true →
          Agent.storeHas (Agent.requirement_validation_node reqOutcome
              freshSid ts st store).2 "requirement_validation" = true)
        ∧ (CodeReviewer.truthyList st.requirements = false →
          (Agent.requirement_validation_node reqOutcome
              freshSid ts st store).2 = store))
    ∧ (∀ (files_info : List Agent.FileInfo) (exc : Option String)
        (freshSid ts : String) (st : Agent.CodeReviewState)
        (store : CodeReviewer.Sessions),
      (CodeReviewer.truthyList st.file_paths = true →
          Agent.valid_files_of files_info ≠ [] →
          Agent.storeHas (Agent.read_files_node files_info exc
              freshSid ts st store).2 "read_files" = true)
        ∧ (CodeReviewer.truthyList st.file_paths = true →
          Agent.valid_files_of files_info = [] →
          (Agent.read_files_node files_info none freshSid ts st store).2 = store)
        ∧ (CodeReviewer.truthyList st.file_paths = false →
          CodeReviewer.truthyStr st.code = false →
          (Agent.read_files_node files_info none freshSid ts st store).2 = store)) := by
  refine ⟨?_, ?_, ?_, ?_⟩
  · intro toolRun exc specOutcome reqOutcome deepOutcome secOutcome
      reportOutcome htmlExists freshSid ts st store h
    refine ⟨?_, ?_, ?_, ?_, ?_, ?_⟩
    · simp [Agent.standards_check_node, h]
    · simp [Agent.spec_validation_node, h]
    · simp [Agent.requirement_validation_node, h]
    · simp [Agent.deep_evaluation_node, h]
    · simp [Agent.security_analysis_node, h]
    · simp [Agent.generate_reports_node, h]
  · intro toolRun exc specOutcome deepOutcome secOutcome
      reportOutcome htmlExists freshSid ts st store h
    refine ⟨?_, ?_, ?_, ?_, ?_⟩
    · cases exc with
      | none =>
        simp only [Agent.standards_check_node, h, Bool.false_eq_true, if_false,
          Agent.agent_save_node_result]
        exact Agent.storeHas_save _ _ _ _ _
      | some m =>
        simp only [Agent.standards_check_node, h, Bool.false_eq_true, if_false,
          Agent.agent_save_node_result]
        exact Agent.storeHas_save _ _ _ _ _
    · cases specOutcome with
      | error m =>
        simp only [Agent.spec_validation_node, h, Bool.false_eq_true, if_false,
          Agent.agent_save_node_result]
        exact Agent.storeHas_save _ _ _ _ _
      | ok v =>
        simp only [Agent.spec_validation_node, h, Bool.false_eq_true, if_false,
          Agent.agent_save_node_result]
        exact Agent.storeHas_save _ _ _ _ _
    · cases deepOutcome with
      | error m =>
        simp only [Agent.deep_evaluation_node, h, Bool.false_eq_true, if_false,
          Agent.agent_save_node_result]
        exact Agent.storeHas_save _ _ _ _ _
      | ok v =>
        simp only [Agent.deep_evaluation_node, h, Bool.false_eq_true, if_false,
          Agent.agent_save_node_result]
        exact Agent.storeHas_save _ _ _ _ _
    · cases secOutcome with
      | error m =>
        simp only [Agent.security_analysis_node, h, Bool.false_eq_true, if_false,
          Agent.agent_save_node_result]
        exact Agent.storeHas_save _ _ _ _ _
      | ok v =>
        simp only [Agent.security_analysis_node, h, Bool.false_eq_true, if_false,
          Agent.agent_save_node_result]
        exact Agent.storeHas_save _ _ _ _ _
    · cases reportOutcome with
      | error m =>
        simp only [Agent.generate_reports_node, h, Bool.false_eq_true, if_false,
          Agent.agent_save_node_result]
        exact Agent.storeHas_save _ _ _ _ _
      | ok v =>
        simp only [Agent.generate_reports_node, h, Bool.false_eq_true, if_false,
          Agent.agent_save_node_result]
        exact Agent.storeHas_save _ _ _ _ _
  · intro reqOutcome freshSid ts st store h
    constructor
    · intro hreq
      cases reqOutcome with
      | error m =>
        simp only [Agent.requirement_validation_node, h, Bool.false_eq_true,
          if_false, hreq, Bool.not_true, Agent.agent_save_node_result]
        exact Agent.storeHas_save _ _ _ _ _
      | ok v =>
        simp only [Agent.requirement_validation_node, h, Bool.false_eq_true,
          if_false, hreq, Bool.not_true, Agent.agent_save_node_result]
        exact Agent.storeHas_save _ _ _ _ _
    · intro hreq
      simp [Agent.requirement_validation_node, h, hreq]
  · intro files_info exc freshSid ts st store
    refine ⟨?_, ?_, ?_⟩
    · intro hp hv
      cases exc with
      | some m =>
        simp only [Agent.read_files_node, Agent.read_files_finish,
          Agent.agent_save_node_result]
        exact Agent.storeHas_save _ _ _ _ _
      | none =>
        have hvb : (Agent.valid_files_of files_info).isEmpty = false := by
          cases hq : Agent.valid_files_of files_info with
          | nil => exact absurd hq hv
          | cons a t => rfl
        simp only [Agent.read_files_node, hp, if_true, hvb, Bool.false_eq_true,
          if_false, Agent.read_files_finish, Agent.agent_save_node_result]
        exact Agent.storeHas_save _ _ _ _ _
    · intro hp hv
      have hvb : (Agent.valid_files_of files_info).isEmpty = true := by
        rw [hv]
        rfl
      simp [Agent.read_files_node, hp, hvb]
    · intro hp hc
      simp [Agent.read_files_node, hp, hc]

/-- Witness for the amended C4: concrete instances of the fault branch (no
summary saved) and the no-fault branch (summary saved) of the standards
stage. -/
theorem stage_summary_persistence_witness :
    (Agent.standards_check_node (fun _ _ => "No issues found.") none "S" "T"
        { error := some "boom" } []).2 = []
    ∧ Agent.storeHas (Agent.standards_check_node (fun _ _ => "No issues found.")
        none "S" "T"
        { files := some (.inputs [⟨"main.py", some "python", "import os"⟩]) }
        []).2 "standards_check" = true :=
  ⟨((stage_summary_persistence.1 (fun _ _ => "No issues found.") none
      (.error "x") (.error "x") (.error "x") (.error "x") (.error "x") false
      "S" "T" { error := some "boom" } [] (by decide)).1),
   ((stage_summary_persistence.2.1 (fun _ _ => "No issues found.") none
      (.error "x") (.error "x") (.error "x") (.error "x") false
      "S" "T"
      { files := some (.inputs [⟨"main.py", some "python", "import os"⟩]) }
      [] (by decide)).1)⟩

/-- C9: evaluation of the end-to-end scenario at the failing input — one
file `script.xyz` whose extension maps to no language but whose content
holds both "def " and "import ".  Ingestion records the truthy string
`'unknown'` as the file's language, and because `analyze_single_file` reads
`file_info.get("language") or detect_language(...)`, the content-heuristic
fallback (which by itself would correctly answer `python`, as the last
conjunct shows) is never consulted: the analysis results record `unknown`,
not `python` as the specification claims. -/
theorem heuristic_fallback_dead_in_pipeline :
    Agent.detect_language_from_extension ".xyz" = "unknown"
    ∧ (Agent.read_files_node
        [⟨"script.xyz", ".xyz", "def main():\n    import os\n", none⟩]
        none "S" "T" { file_paths := some ["script.xyz"] } []).1.files
      = some (.inputs
          [⟨"script.xyz", some "unknown", "def main():\n    import os\n"⟩])
    ∧ (CodeStandards.analyze_single_file (fun _ _ => "No issues found.")
        ⟨"script.xyz", some "unknown", "def main():\n    import os\n"⟩).language
      = "unknown"
    ∧ CodeStandards.detect_language "def main():\n    import os\n"
        (some "script.xyz") = "python"
    ∧ "unknown" ≠ "python" := by
  refine ⟨rfl, rfl, rfl, by decide, by decide⟩
